import Mathlib

/-!
Verification development for the Hestia gateway (mNandhu/Hestia).

Shallow embedding of the orchestration core: the per-service lifecycle
records (src/hestia/app.py), the cold-start request queue
(src/hestia/request_queue.py), the proxy pipeline attempt loop with
retries and fallback (app.py, _perform_gateway_request and
_perform_proxy_request), the round-robin load balancer with health
tracking (strategies/load_balancer.py), and the configuration resolution
with the built-in ollama default (src/hestia/config.py).

Python dicts keyed by service id / url are embedded as association lists
with first-match lookup and in-place update; machine integers are Nat/Int;
fallible code returns Option.
-/

set_option autoImplicit false

namespace Hestia

/-! ## Association-list maps (embedding of Python dicts) -/

/-- First-match lookup in an association list (Python dict lookup). -/
def findA {β : Type} : List (String × β) → String → Option β
  | [], _ => none
  | (k2, v) :: rest, k => if k2 = k then some v else findA rest k

/-- In-place update of the first matching key, appending when absent
(Python dict item assignment). -/
def setA {β : Type} : List (String × β) → String → β → List (String × β)
  | [], k, v => [(k, v)]
  | (k2, v2) :: rest, k, v =>
      if k2 = k then (k, v) :: rest else (k2, v2) :: setA rest k v

/-- Key membership (Python in-operator on a dict). -/
def memA {β : Type} (m : List (String × β)) (k : String) : Bool :=
  (findA m k).isSome

@[simp] theorem findA_nil {β : Type} (k : String) : findA ([] : List (String × β)) k = none := rfl

@[simp] theorem findA_cons {β : Type} (k2 k : String) (v : β) (rest : List (String × β)) :
    findA ((k2, v) :: rest) k = if k2 = k then some v else findA rest k := rfl

@[simp] theorem setA_nil {β : Type} (k : String) (v : β) :
    setA ([] : List (String × β)) k v = [(k, v)] := rfl

@[simp] theorem setA_cons {β : Type} (k2 k : String) (v2 v : β) (rest : List (String × β)) :
    setA ((k2, v2) :: rest) k v =
      if k2 = k then (k, v) :: rest else (k2, v2) :: setA rest k v := rfl

theorem findA_setA_self {β : Type} (m : List (String × β)) (k : String) (v : β) :
    findA (setA m k v) k = some v := by
  induction m with
  | nil => simp [findA, setA]
  | cons p rest ih =>
      obtain ⟨k2, v2⟩ := p
      by_cases h : k2 = k
      · simp [findA, setA, h]
      · simp [findA, setA, h, ih]

theorem findA_setA_other {β : Type} (m : List (String × β)) (k k2 : String) (v : β)
    (h : k ≠ k2) : findA (setA m k v) k2 = findA m k2 := by
  induction m with
  | nil => simp [findA, setA, h]
  | cons p rest ih =>
      obtain ⟨k3, v3⟩ := p
      by_cases h3 : k3 = k
      · subst h3
        simp [findA, setA, h]
      · simp only [setA_cons, if_neg h3, findA_cons]
        by_cases h4 : k3 = k2 <;> simp [h4, ih]

/-! ## Service configuration (src/hestia/config.py, class ServiceConfig) -/

/-- One upstream instance entry from ServiceConfig.instances
(a dict with url and optional region; weight is unused by the embedded code). -/
structure Instance where
  url : String
  region : Option String
deriving DecidableEq, Repr

/-- Embedding of ServiceConfig (config.py lines 8-30); the semaphore fields
are omitted because none of the embedded operations read them. -/
structure ServiceConfig where
  base_url : String := "http://localhost:11434"
  retry_count : Nat := 1
  retry_delay_ms : Nat := 0
  health_url : Option String := none
  warmup_ms : Nat := 0
  idle_timeout_ms : Int := 0
  fallback_url : Option String := none
  queue_size : Nat := 100
  request_timeout_seconds : Nat := 60
  instances : List Instance := []
  strategy : Option String := none
deriving DecidableEq, Repr

/-- Default-constructed ServiceConfig (all pydantic defaults). -/
def defaultServiceConfig : ServiceConfig := {}

/-- Embedding of HestiaConfig: the per-service table. -/
structure HestiaConfig where
  services : List (String × ServiceConfig)
deriving Repr

/-- Embedding of HestiaConfig.__init__ (config.py lines 76-80): after
construction the ollama service always exists with defaults. -/
def mkHestiaConfig (services : List (String × ServiceConfig)) : HestiaConfig :=
  if memA services "ollama" then ⟨services⟩
  else ⟨setA services "ollama" defaultServiceConfig⟩

/-- Embedding of the expression
services.get(service_id, services[quote ollama quote]) used by
dispatch_request (app.py line 173), get_service_status (line 416),
start_service_proactively (line 551) and transparent_proxy (line 615);
indexing a missing ollama key would raise, embedded as none. -/
def cfgGet (c : HestiaConfig) (serviceId : String) : Option ServiceConfig :=
  match findA c.services serviceId with
  | some v => some v
  | none => findA c.services "ollama"

/-! ## Service records (app.py, the _services in-memory store) -/

inductive SState
  | cold
  | starting
  | hot
  | stopping
deriving DecidableEq, Repr

inductive Readiness
  | ready
  | not_ready
deriving DecidableEq, Repr

/-- Per-service mutable runtime record (entries of the _services dict).
last_used_ms is optional because the key may be absent from the dict. -/
structure ServiceRecord where
  state : SState
  readiness : Readiness
  last_used_ms : Option Int
deriving DecidableEq, Repr

/-- Reads of an absent record use dict-get defaults cold / not_ready
(app.py lines 176-179, 419-421, 530-532). -/
def defaultRecord : ServiceRecord := ⟨SState.cold, Readiness.not_ready, none⟩

abbrev Services := List (String × ServiceRecord)

/-- Record lookup with the store's read defaults. -/
def getRecord (m : Services) (sid : String) : ServiceRecord :=
  (findA m sid).getD defaultRecord

/-- Embedding of _touch (app.py lines 970-975): setdefault with a fresh
hot/ready record, then stamp last_used_ms. -/
def touch (m : Services) (sid : String) (now : Int) : Services :=
  match findA m sid with
  | some r => setA m sid { r with last_used_ms := some now }
  | none => setA m sid ⟨SState.hot, Readiness.ready, some now⟩

/-- Embedding of the promotion writes shared by the startup driver
(_start_service_async, app.py lines 904-931), the synchronous start path
(lines 568-571) and the opportunistic status probe (lines 430-434):
set readiness ready, state hot, last_used_ms now. -/
def promoteHot (m : Services) (sid : String) (now : Int) : Services :=
  match findA m sid with
  | some r =>
      setA m sid { r with state := SState.hot, readiness := Readiness.ready,
                          last_used_ms := some now }
  | none => setA m sid ⟨SState.hot, Readiness.ready, some now⟩

/-- Embedding of one sweep of _idle_monitor_loop (app.py lines 978-1002):
flip hot records whose activity is older than their idle timeout to
cold / not_ready; a non-positive timeout disables idle shutdown. -/
def idleSweep (m : Services) (now : Int) (idleOf : String → Int) : Services :=
  m.map (fun p =>
    let idle := idleOf p.1
    let svc := p.2
    if idle ≤ 0 then p
    else if svc.state = SState.hot ∧ now - (svc.last_used_ms.getD now) ≥ idle then
      (p.1, { svc with state := SState.cold, readiness := Readiness.not_ready })
    else p)

/-! ## Request queue (src/hestia/request_queue.py, class RequestQueue) -/

/-- A queued waiter: the future is a single-shot completion channel;
done mirrors future.done(). The id stands for the request fingerprint. -/
structure Waiter where
  id : Nat
  done : Bool
deriving DecidableEq, Repr

/-- Embedding of the RequestQueue state: per-service FIFO deques, the
per-service startup-in-progress flags, and the constructor-time bound. -/
structure QueueState where
  service_queues : List (String × List Waiter)
  startup_in_progress : List (String × Bool)
  max_queue_size : Nat
deriving DecidableEq, Repr

/-- The queue constructed by the app (app.py line 34: RequestQueue() with
the constructor defaults of request_queue.py line 38, max_queue_size=100). -/
def appRequestQueue : QueueState := ⟨[], [], 100⟩

/-- Embedding of RequestQueue.queue_request (request_queue.py lines 46-90):
fails (raises ValueError) when the service's queue already holds
max_queue_size entries; otherwise appends the waiter, creating the deque
when absent. -/
def queueRequest (q : QueueState) (sid : String) (w : Waiter) : Option QueueState :=
  match findA q.service_queues sid with
  | some ws =>
      if ws.length ≥ q.max_queue_size then none
      else some { q with service_queues := setA q.service_queues sid (ws ++ [w]) }
  | none => some { q with service_queues := setA q.service_queues sid [w] }

/-- Embedding of RequestQueue.process_next_request (lines 110-126): pop the
FIFO head; complete its future with the payload when not already done.
First component mirrors the Python return (none / some false / some true);
the last component is the completion performed, if any. -/
def processNext (q : QueueState) (sid : String) (payload : String) :
    Option Bool × QueueState × Option (Nat × String) :=
  match findA q.service_queues sid with
  | none => (none, q, none)
  | some [] => (some false, q, none)
  | some (w :: rest) =>
      (some true, { q with service_queues := setA q.service_queues sid rest },
       if w.done then none else some (w.id, payload))

/-- The while-loop of process_all_requests compiled over the deque it
drains: completions of the popped waiters, in pop order. -/
def drainCompletions (payload : String) : List Waiter → List (Nat × String)
  | [] => []
  | w :: rest =>
      (if w.done then [] else [(w.id, payload)]) ++ drainCompletions payload rest

/-- Embedding of RequestQueue.process_all_requests (lines 128-136): loop
process_next_request until it stops returning True; returns the new state
and the completions performed, in order. -/
def processAll (q : QueueState) (sid : String) (payload : String) :
    QueueState × List (Nat × String) :=
  match findA q.service_queues sid with
  | none => (q, [])
  | some ws =>
      ({ q with service_queues := setA q.service_queues sid [] },
       drainCompletions payload ws)

/-- Embedding of RequestQueue.clear_queue (lines 148-166): cancel and drop
every queued waiter for the service. -/
def clearQueue (q : QueueState) (sid : String) : QueueState :=
  match findA q.service_queues sid with
  | none => q
  | some _ => { q with service_queues := setA q.service_queues sid [] }

/-- Embedding of RequestQueue.is_service_starting (lines 168-171). -/
def isServiceStarting (q : QueueState) (sid : String) : Bool :=
  (findA q.startup_in_progress sid).getD false

/-- Embedding of RequestQueue.mark_service_starting (lines 173-183):
claim the startup flag; False when already claimed. -/
def markServiceStarting (q : QueueState) (sid : String) : Bool × QueueState :=
  if (findA q.startup_in_progress sid).getD false then (false, q)
  else (true, { q with startup_in_progress := setA q.startup_in_progress sid true })

/-- Embedding of RequestQueue.mark_service_ready (lines 185-188):
clear the startup flag. -/
def markServiceReady (q : QueueState) (sid : String) : QueueState :=
  { q with startup_in_progress := setA q.startup_in_progress sid false }

/-! ## Load balancer strategy (strategies/load_balancer.py) -/

/-- Embedding of the LoadBalancerStrategy mutable state (lines 26-29);
last_health_check is carried for fidelity though only should_check_health
reads it. -/
structure LBState where
  service_instances : List (String × List Instance)
  current_index : List (String × Nat)
  health_status : List (String × List (String × Bool))
  last_health_check : List (String × List (String × Nat))
deriving DecidableEq, Repr

/-- The freshly constructed strategy instance (lines 20-29). -/
def emptyLB : LBState := ⟨[], [], [], []⟩

/-- Embedding of register_service_instances (lines 31-49): overwrite the
instance list, reset the round-robin cursor to 0, and reset every
instance's health to True. -/
def registerServiceInstances (st : LBState) (sid : String)
    (instances : List Instance) : LBState :=
  { service_instances := setA st.service_instances sid instances
    current_index := setA st.current_index sid 0
    health_status := setA st.health_status sid (instances.map (fun i => (i.url, true)))
    last_health_check := setA st.last_health_check sid (instances.map (fun i => (i.url, 0))) }

/-- Embedding of get_next_instance (lines 51-94): filter to healthy
instances, fall back to the first configured instance when none are
healthy, restrict to the user region when it matches, pick at
cursor mod size and advance the cursor. -/
def getNextInstance (st : LBState) (sid : String) (userRegion : Option String) :
    Option String × LBState :=
  match findA st.service_instances sid with
  | none => (none, st)
  | some instances =>
      let health := (findA st.health_status sid).getD []
      let healthy := instances.filter (fun i => (findA health i.url).getD true)
      if healthy.isEmpty then
        ((instances.head?).map Instance.url, st)
      else
        let healthy2 :=
          match userRegion with
          | some ur =>
              let regional := healthy.filter (fun i => Instance.region i = some ur)
              if regional.isEmpty then healthy else regional
          | none => healthy
        let idx := (findA st.current_index sid).getD 0
        match healthy2.get? (idx % healthy2.length) with
        | some sel =>
            let idx2 := (idx + 1) % healthy2.length
            (some sel.url, { st with current_index := setA st.current_index sid idx2 })
        | none => (none, st)

/-- Embedding of mark_instance_unhealthy (lines 96-100). -/
def markInstanceUnhealthy (st : LBState) (sid : String) (url : String) : LBState :=
  match findA st.health_status sid with
  | none => st
  | some h =>
      if (findA h url).isSome then
        { st with health_status := setA st.health_status sid (setA h url false) }
      else st

/-- Embedding of mark_instance_healthy (lines 102-106). -/
def markInstanceHealthy (st : LBState) (sid : String) (url : String) : LBState :=
  match findA st.health_status sid with
  | none => st
  | some h =>
      if (findA h url).isSome then
        { st with health_status := setA st.health_status sid (setA h url true) }
      else st

/-- Embedding of the instance-resolution part of _resolve_upstream_base
(app.py lines 123-160). The configured strategy is consulted first; the
load_balancer strategy instance has no route_request attribute, so for it
(and for services without a strategy) strategyRoute is none and the code
falls through to the instances branch, which re-registers the instances
and asks for the next one; otherwise base_url. -/
def resolveUpstreamBase (strategyRoute : Option String) (cfg : ServiceConfig)
    (sid : String) (userRegion : Option String) (lb : LBState) :
    String × String × LBState :=
  match strategyRoute with
  | some url => (url, "strategy", lb)
  | none =>
      if cfg.instances.isEmpty then (cfg.base_url, "base_url", lb)
      else
        let lb1 := registerServiceInstances lb sid cfg.instances
        match getNextInstance lb1 sid userRegion with
        | (some url, lb2) => (url, "load_balancer", lb2)
        | (none, lb2) => (cfg.base_url, "base_url", lb2)

/-! ## Proxy pipeline attempt loop (app.py, _perform_gateway_request lines
295-407 and _perform_proxy_request lines 728-859; the retry / fallback /
touch / health-marking skeleton of the two functions is identical). -/

/-- Outcome of one upstream HTTP call: a transport exception, or a
response with the given status code. -/
inductive Outcome
  | exc
  | resp (status : Nat)
deriving DecidableEq, Repr

/-- Observable actions emitted by the pipeline, in program order. -/
inductive Act
  | primaryCall (o : Outcome)
  | fallbackCall (o : Outcome)
  | touchAct
  | markHealthy (url : String)
  | markUnhealthy (url : String)
deriving DecidableEq, Repr

/-- The health classification performed after a response (app.py lines
306-316 and 739-747): statuses in [200, 500) mark the instance healthy,
everything else marks it unhealthy. -/
def classifyAct (base : String) (s : Nat) : Act :=
  if 200 ≤ s ∧ s < 500 then Act.markHealthy base else Act.markUnhealthy base

/-- The primary for-loop over attempts (app.py lines 297-361 / 730-800),
compiled over the list of outcomes of the attempts in order; a singleton
is the final attempt. On a response: touch, classify, then return the
response unless it is a 5xx on a non-final attempt (retry). On the final
attempt a response is returned even when it is a 5xx (the return at lines
345-349 / 774-788 executes). On an exception: mark unhealthy, retry when
non-final, break (none) on the final attempt. -/
def attemptLoop (base : String) : List Outcome → List Act × Option Nat
  | [] => ([], none)
  | [o] =>
      match o with
      | Outcome.resp s =>
          ([Act.primaryCall o, Act.touchAct, classifyAct base s], some s)
      | Outcome.exc => ([Act.primaryCall o, Act.markUnhealthy base], none)
  | o :: rest =>
      match o with
      | Outcome.resp s =>
          if 500 ≤ s then
            let (tr, r) := attemptLoop base rest
            (Act.primaryCall o :: Act.touchAct :: classifyAct base s :: tr, r)
          else
            ([Act.primaryCall o, Act.touchAct, classifyAct base s], some s)
      | Outcome.exc =>
          let (tr, r) := attemptLoop base rest
          (Act.primaryCall o :: Act.markUnhealthy base :: tr, r)

/-- The outcomes the upstream would produce: one per primary attempt
index, plus the fallback outcome. -/
structure Plan where
  primary : Nat → Outcome
  fallback : Outcome

structure PipeResult where
  trace : List Act
  clientStatus : Nat
deriving DecidableEq, Repr

/-- Embedding of the whole attempt section: total attempts
max(1, retry_count) (lines 289-291 / 722-724), the primary loop, then at
most one fallback attempt when fallback_url is set (lines 364-404 /
803-840) whose response is returned regardless of status but which
performs no health marking; 503 when everything failed (line 407 raises,
caught to a 503 envelope at lines 220-225; line 859 returns 503). -/
def runPipeline (base : String) (cfg : ServiceConfig) (plan : Plan) : PipeResult :=
  let total := max 1 cfg.retry_count
  let outcomes := (List.range total).map plan.primary
  let (tr, r) := attemptLoop base outcomes
  match r with
  | some s => ⟨tr, s⟩
  | none =>
      match cfg.fallback_url with
      | some _ =>
          match plan.fallback with
          | Outcome.resp s =>
              ⟨tr ++ [Act.fallbackCall (Outcome.resp s), Act.touchAct], s⟩
          | Outcome.exc => ⟨tr ++ [Act.fallbackCall Outcome.exc], 503⟩
      | none => ⟨tr, 503⟩

def isFallbackCall : Act → Bool
  | Act.fallbackCall _ => true
  | _ => false

def isPrimaryCall : Act → Bool
  | Act.primaryCall _ => true
  | _ => false

def isTouch : Act → Bool
  | Act.touchAct => true
  | _ => false

/-- A call (primary or fallback) that yielded an HTTP response. -/
def isRespCall : Act → Bool
  | Act.primaryCall (Outcome.resp _) => true
  | Act.fallbackCall (Outcome.resp _) => true
  | _ => false

/-- A health marking, either direction. -/
def isMark : Act → Bool
  | Act.markHealthy _ => true
  | Act.markUnhealthy _ => true
  | _ => false

/-- Number of trace actions satisfying a predicate. -/
def countIf (f : Act → Bool) (tr : List Act) : Nat := (tr.filter f).length

/-- Every call that yielded a response is immediately followed by the
activity stamp (so the stamp happens before the status is classified). -/
def respCallsImmediatelyTouched : List Act → Bool
  | [] => true
  | a :: rest =>
      (match a, rest.head? with
       | Act.primaryCall (Outcome.resp _), h => h = some Act.touchAct
       | Act.fallbackCall (Outcome.resp _), h => h = some Act.touchAct
       | _, _ => true) && respCallsImmediatelyTouched rest

/-- Each primary attempt's health marking is the classification of its
outcome: responses are followed (after the touch) by markHealthy exactly
when the status is in [200, 500); transport exceptions are followed by
markUnhealthy; fallback calls mark nothing. -/
def primaryMarksClassified (base : String) : List Act → Bool
  | [] => true
  | Act.primaryCall (Outcome.resp s) :: Act.touchAct :: m :: rest =>
      decide (m = classifyAct base s) && primaryMarksClassified base rest
  | Act.primaryCall (Outcome.resp _) :: _ => false
  | Act.primaryCall Outcome.exc :: m :: rest =>
      decide (m = Act.markUnhealthy base) && primaryMarksClassified base rest
  | [Act.primaryCall Outcome.exc] => false
  | Act.fallbackCall _ :: rest => primaryMarksClassified base rest
  | Act.touchAct :: rest => primaryMarksClassified base rest
  | Act.markHealthy _ :: rest => primaryMarksClassified base rest
  | Act.markUnhealthy _ :: rest => primaryMarksClassified base rest

/-- The service-record coupling invariant of the spec, per record:
state hot forces readiness ready; states cold, starting, stopping force
readiness not_ready. -/
def recordCoupled (r : ServiceRecord) : Bool :=
  decide (r.state = SState.hot → r.readiness = Readiness.ready) &&
  decide ((r.state = SState.cold ∨ r.state = SState.starting ∨ r.state = SState.stopping) →
    r.readiness = Readiness.not_ready)

/-- The coupling invariant over the whole _services store. -/
def servicesCoupled (m : Services) : Bool := m.all (fun p => recordCoupled p.2)

/-! ## Status endpoint (app.py, get_service_status lines 410-464) -/

/-- The status probe timeout in seconds (httpx.get with timeout=2.0,
app.py line 427). -/
def statusProbeTimeoutS : Nat := 2

structure StatusResult where
  state : SState
  readiness : Readiness
  queuePending : Nat
  services : Services
  queue : QueueState
  probed : Bool
deriving DecidableEq, Repr

/-- The tail of get_service_status (lines 448-464): pending-count lookup
and the starting-state override for the reported state. -/
def statusFinish (services2 : Services) (q2 : QueueState) (sid : String)
    (st : SState) (rd : Readiness) (probed : Bool) : StatusResult :=
  let pending := ((findA q2.service_queues sid).getD []).length
  let st2 :=
    if isServiceStarting q2 sid ∧ ¬(st = SState.hot ∧ rd = Readiness.ready) then
      SState.starting
    else st
  ⟨st2, rd, pending, services2, q2, probed⟩

/-- Embedding of get_service_status (lines 410-464). probe is the result
of the opportunistic health probe when it is performed: none embeds a
transport exception, some s an HTTP response with status s. On 200 the
record is promoted to hot/ready with last_used_ms stamped (lines 430-436)
and a set startup flag is cleared (lines 438-440); on anything else the
state is reported as-is. -/
def getServiceStatus (services : Services) (q : QueueState) (cfg : ServiceConfig)
    (sid : String) (now : Int) (probe : Option Nat) : StatusResult :=
  let r := getRecord services sid
  let state0 := r.state
  let ready0 := r.readiness
  if ¬(state0 = SState.hot ∧ ready0 = Readiness.ready) ∧ cfg.health_url.isSome then
    match probe with
    | some s =>
        if s = 200 then
          let services2 := promoteHot services sid now
          let q2 := if isServiceStarting q sid then markServiceReady q sid else q
          statusFinish services2 q2 sid SState.hot Readiness.ready true
        else statusFinish services q sid state0 ready0 true
    | none => statusFinish services q sid state0 ready0 true
  else statusFinish services q sid state0 ready0 false

/-! ## Proactive start endpoint (app.py, start_service_proactively
lines 524-603) -/

/-- The release payload process_all_requests is called with
(app.py lines 574 and 935). -/
def readyPayload : String := "service_ready"

structure StartResult where
  code : Nat
  services : Services
  queue : QueueState
  driverLaunched : Bool
deriving DecidableEq, Repr

/-- Embedding of start_service_proactively (lines 524-603): 409 when the
record is already hot/ready or a startup is in progress; otherwise claim
the startup flag and launch the startup driver — synchronously when
warmup_ms is at most 100 and no health_url is set (lines 562-587:
promote, clear the flag, release the queue), asynchronously otherwise
(line 590: the flag stays claimed until the driver completes) — and
return 202. driverLaunched records whether this call initiated a driver. -/
def startServiceProactively (services : Services) (q : QueueState)
    (cfg : ServiceConfig) (sid : String) (now : Int) : StartResult :=
  let r := getRecord services sid
  if r.state = SState.hot ∧ r.readiness = Readiness.ready then
    ⟨409, services, q, false⟩
  else if isServiceStarting q sid then
    ⟨409, services, q, false⟩
  else
    match markServiceStarting q sid with
    | (true, q2) =>
        if cfg.warmup_ms ≤ 100 ∧ cfg.health_url = none then
          let services2 := promoteHot services sid now
          let q3 := markServiceReady q2 sid
          let q4 := (processAll q3 sid readyPayload).1
          ⟨202, services2, q4, true⟩
        else ⟨202, services, q2, true⟩
    | (false, q2) => ⟨409, services, q2, false⟩

/-! ## Queue operations as a language (for the startup-flag exclusivity
claim): everything the rest of the system can do to the RequestQueue. -/

/-- Removal of the first waiter with the given future identity, from
RequestQueue._timeout_request (request_queue.py lines 92-108). -/
def removeFirstById : List Waiter → Nat → List Waiter
  | [], _ => []
  | w :: rest, wid => if w.id = wid then rest else w :: removeFirstById rest wid

/-- Embedding of _timeout_request's queue mutation. -/
def timeoutRequest (q : QueueState) (sid : String) (wid : Nat) : QueueState :=
  match findA q.service_queues sid with
  | none => q
  | some ws =>
      { q with service_queues := setA q.service_queues sid (removeFirstById ws wid) }

/-- The public mutations of RequestQueue. -/
inductive QOp
  | enqueue (sid : String) (w : Waiter)
  | procNext (sid : String) (payload : String)
  | procAll (sid : String) (payload : String)
  | clear (sid : String)
  | timeoutOp (sid : String) (wid : Nat)
  | markStarting (sid : String)
  | markReady (sid : String)
deriving DecidableEq, Repr

/-- State effect of one queue operation (a failing enqueue raises and
leaves the state unchanged). -/
def applyQOp (q : QueueState) : QOp → QueueState
  | QOp.enqueue sid w => (queueRequest q sid w).getD q
  | QOp.procNext sid p => (processNext q sid p).2.1
  | QOp.procAll sid p => (processAll q sid p).1
  | QOp.clear sid => clearQueue q sid
  | QOp.timeoutOp sid wid => timeoutRequest q sid wid
  | QOp.markStarting sid => (markServiceStarting q sid).2
  | QOp.markReady sid => markServiceReady q sid

def applyQOps (q : QueueState) : List QOp → QueueState
  | [] => q
  | op :: rest => applyQOps (applyQOp q op) rest

/-! ## Helper lemmas -/

theorem findA_mem {β : Type} {m : List (String × β)} {k : String} {v : β}
    (h : findA m k = some v) : (k, v) ∈ m := by
  induction m with
  | nil => simp [findA] at h
  | cons p rest ih =>
      obtain ⟨k2, v2⟩ := p
      by_cases hk : k2 = k
      · subst hk
        simp [findA] at h
        subst h
        exact List.mem_cons_self _ _
      · simp [findA, hk] at h
        exact List.mem_cons_of_mem _ (ih h)

theorem countIf_append (f : Act → Bool) (xs ys : List Act) :
    countIf f (xs ++ ys) = countIf f xs + countIf f ys := by
  simp [countIf, List.filter_append]

theorem drainCompletions_eq (payload : String) (ws : List Waiter) :
    drainCompletions payload ws =
      (ws.filter (fun w => !w.done)).map (fun w => (w.id, payload)) := by
  induction ws with
  | nil => rfl
  | cons w rest ih =>
      cases h : w.done <;> simp [drainCompletions, List.filter_cons, h, ih]

/-! ## C1 -/

/-- C1: refuted on the code as written. With retry_count = 1 and a
configured fallback_url, a primary attempt that yields HTTP 500 on the
final (here: only) attempt is returned to the client as-is: the client
status is 500 and the trace contains no fallback attempt, although the
claim (and the comment at app.py lines 343 and 772, quote If last
attempt, will fall through to fallback logic) requires exactly one
fallback attempt. The second conjunct shows the contrast: when the
primary attempts raise transport exceptions instead, the fallback is
attempted exactly once, matching tests/integration/test_startup_policy.py. -/
theorem final_5xx_returned_without_fallback :
    (runPipeline "http://primary.local"
        { retry_count := 1, fallback_url := some "http://fallback.local" }
        ⟨fun _ => Outcome.resp 500, Outcome.resp 200⟩ =
      ⟨[Act.primaryCall (Outcome.resp 500), Act.touchAct,
        Act.markUnhealthy "http://primary.local"], 500⟩) ∧
    (countIf isFallbackCall (runPipeline "http://primary.local"
        { retry_count := 2, fallback_url := some "http://fallback.local" }
        ⟨fun _ => Outcome.exc, Outcome.exc⟩).trace = 1 ∧
     countIf isPrimaryCall (runPipeline "http://primary.local"
        { retry_count := 2, fallback_url := some "http://fallback.local" }
        ⟨fun _ => Outcome.exc, Outcome.exc⟩).trace = 2 ∧
     (runPipeline "http://primary.local"
        { retry_count := 2, fallback_url := some "http://fallback.local" }
        ⟨fun _ => Outcome.exc, Outcome.exc⟩).clientStatus = 503) := by
  exact ⟨rfl, rfl, rfl, rfl⟩

/-! ## C2 -/

/-- The two instances of the health-failover scenario
(tests/integration/test_health_failover.py). -/
def instA : Instance := ⟨"http://a.local", none⟩

def instB : Instance := ⟨"http://b.local", none⟩

def cfgAB : ServiceConfig := { instances := [instA, instB] }

/-- C2: refuted on the code as written. First request resolves to A;
the pipeline marks A unhealthy after its 503; but the second request
re-enters _resolve_upstream_base, whose unconditional
register_service_instances call resets the round-robin cursor to 0 and
the health of every instance to healthy, so the second request resolves
to A again — not B as the claim (and the repo's own
test_health_failover.py) requires. The final conjunct shows that without
the re-registration the very same load-balancer state would have picked
B, isolating the reset as the cause. -/
theorem reregistration_resets_health :
    (resolveUpstreamBase none cfgAB "svc" none emptyLB).1 = "http://a.local" ∧
    (resolveUpstreamBase none cfgAB "svc" none
        (markInstanceUnhealthy (resolveUpstreamBase none cfgAB "svc" none emptyLB).2.2
          "svc" "http://a.local")).1 = "http://a.local" ∧
    (getNextInstance
        (markInstanceUnhealthy (resolveUpstreamBase none cfgAB "svc" none emptyLB).2.2
          "svc" "http://a.local")
        "svc" none).1 = some "http://b.local" := by
  exact ⟨rfl, rfl, rfl⟩

/-! ## C4 -/

/-- The enqueue guard of transparent_proxy (app.py lines 641-653) and
dispatch_request (lines 198-214): an enqueue failure is caught and
surfaced to the client as 503. -/
def proxyEnqueueStatus (q : QueueState) (sid : String) (w : Waiter) : Option Nat :=
  match queueRequest q sid w with
  | some _ => none
  | none => some 503

/-- C4 counterexample: the app's queue (RequestQueue() with
max_queue_size = 100) accepts a second waiter for a service whose
configuration sets queue_size = 1, although the claim says enqueueing
must fail exactly when the queue already holds ServiceConfig.queue_size
entries; the per-service bound is never consulted. -/
theorem enqueue_ignores_config_queue_size :
    ({ defaultServiceConfig with queue_size := 1 } : ServiceConfig).queue_size = 1 ∧
    queueRequest appRequestQueue "s" ⟨1, false⟩ =
      some ⟨[("s", [⟨1, false⟩])], [], 100⟩ ∧
    (queueRequest (⟨[("s", [⟨1, false⟩])], [], 100⟩ : QueueState) "s" ⟨2, false⟩).isSome
      = true := by
  exact ⟨rfl, rfl, rfl⟩

/-- C4 (amended): an enqueue fails — and the endpoint surfaces 503 —
exactly when the service's queue already holds
RequestQueue.max_queue_size entries; the app constructs its queue with
the default bound 100, and ServiceConfig.queue_size plays no part. -/
theorem queue_full_iff_max_queue_size (q : QueueState) (sid : String) (w : Waiter) :
    (proxyEnqueueStatus q sid w = some 503 ↔
      ∃ ws, findA q.service_queues sid = some ws ∧ q.max_queue_size ≤ ws.length) ∧
    appRequestQueue.max_queue_size = 100 := by
  constructor
  · constructor
    · intro h
      unfold proxyEnqueueStatus queueRequest at h
      cases hf : findA q.service_queues sid with
      | none => simp [hf] at h
      | some ws =>
          refine ⟨ws, rfl, ?_⟩
          by_cases hlen : ws.length ≥ q.max_queue_size
          · exact hlen
          · simp [hf, hlen] at h
    · rintro ⟨ws, hf, hlen⟩
      unfold proxyEnqueueStatus queueRequest
      simp [hf, hlen]
  · rfl

/-! ## C5 -/

/-- C5 counterexample: an upstream attempt yielding HTTP 100 — a status
below 500 — is marked unhealthy by the pipeline (the code tests
200 <= status < 500, app.py lines 307-316 and 740-747), refuting the
claim that every status below 500, including informational 1xx statuses,
marks the instance healthy. -/
theorem status_100_marked_unhealthy :
    (runPipeline "http://u.local" {} ⟨fun _ => Outcome.resp 100, Outcome.exc⟩).trace =
      [Act.primaryCall (Outcome.resp 100), Act.touchAct,
       Act.markUnhealthy "http://u.local"] := by
  exact rfl

/-! ## C7 -/

/-- C7: releasing the queue completes exactly the pending (not-yet-done)
waiters, each exactly once, with the release payload, in the order they
were enqueued (the FIFO order of the deque), and empties the deque. -/
theorem release_all_fifo (q : QueueState) (sid : String) (payload : String)
    (ws : List Waiter) (h : findA q.service_queues sid = some ws) :
    processAll q sid payload =
      ({ q with service_queues := setA q.service_queues sid [] },
       (ws.filter (fun w => !w.done)).map (fun w => (w.id, payload))) := by
  unfold processAll
  rw [h]
  simp only [drainCompletions_eq]

/-- C7 witness: three waiters, the middle one already completed; the
release completes waiters 1 and 3, in order, with the payload. -/
theorem release_all_fifo_witness :
    processAll ⟨[("s", [⟨1, false⟩, ⟨2, true⟩, ⟨3, false⟩])], [], 100⟩ "s" "ok" =
      (⟨[("s", [])], [], 100⟩, [(1, "ok"), (3, "ok")]) := by
  have h := release_all_fifo ⟨[("s", [⟨1, false⟩, ⟨2, true⟩, ⟨3, false⟩])], [], 100⟩
    "s" "ok" [⟨1, false⟩, ⟨2, true⟩, ⟨3, false⟩] rfl
  rw [h]
  rfl

/-! ## C10 -/

/-- After construction the ollama service is always present. -/
theorem mkHestiaConfig_ollama (svcs : List (String × ServiceConfig)) :
    memA (mkHestiaConfig svcs).services "ollama" = true := by
  unfold mkHestiaConfig
  cases h : memA svcs "ollama" with
  | true => simp [h]
  | false => simp [memA, findA_setA_self]

/-- C10: resolution of any service id against a constructed configuration
never fails (no 404 path exists in dispatch_request, transparent_proxy,
get_service_status or start_service_proactively), and an id absent from
the table resolves to the built-in ollama entry, which the constructor
guarantees to exist. -/
theorem unknown_service_resolves_to_ollama (svcs : List (String × ServiceConfig))
    (sid : String) :
    (cfgGet (mkHestiaConfig svcs) sid).isSome = true ∧
    (findA (mkHestiaConfig svcs).services sid = none →
      cfgGet (mkHestiaConfig svcs) sid = findA (mkHestiaConfig svcs).services "ollama") := by
  constructor
  · unfold cfgGet
    cases hf : findA (mkHestiaConfig svcs).services sid with
    | some v => simp
    | none =>
        simp only []
        have h := mkHestiaConfig_ollama svcs
        unfold memA at h
        simpa using h
  · intro h
    unfold cfgGet
    rw [h]

/-- C10 witness: the empty file configuration still resolves the unknown
id x, to the default ollama entry. -/
theorem unknown_service_resolves_to_ollama_witness :
    (cfgGet (mkHestiaConfig []) "x").isSome = true ∧
    cfgGet (mkHestiaConfig []) "x" = findA (mkHestiaConfig []).services "ollama" := by
  exact ⟨(unknown_service_resolves_to_ollama [] "x").1,
         (unknown_service_resolves_to_ollama [] "x").2 (by rfl)⟩

/-! ## C8 -/

theorem servicesCoupled_iff (m : Services) :
    servicesCoupled m = true ↔ ∀ p ∈ m, recordCoupled p.2 = true := by
  simp [servicesCoupled, List.all_eq_true]

theorem recordCoupled_stamp (r : ServiceRecord) (x : Option Int) :
    recordCoupled { r with last_used_ms := x } = recordCoupled r := by
  rfl

theorem recordCoupled_hot_ready (x : Option Int) :
    recordCoupled ⟨SState.hot, Readiness.ready, x⟩ = true := by
  rfl

theorem recordCoupled_cold_not_ready (x : Option Int) :
    recordCoupled ⟨SState.cold, Readiness.not_ready, x⟩ = true := by
  rfl

theorem servicesCoupled_setA {m : Services} {k : String} {v : ServiceRecord}
    (hm : servicesCoupled m = true) (hv : recordCoupled v = true) :
    servicesCoupled (setA m k v) = true := by
  rw [servicesCoupled_iff] at hm ⊢
  intro p hp
  induction m with
  | nil =>
      simp [setA] at hp
      subst hp
      exact hv
  | cons q rest ih =>
      obtain ⟨k2, v2⟩ := q
      by_cases hk : k2 = k
      · simp [setA, hk] at hp
        rcases hp with hp | hp
        · subst hp
          exact hv
        · exact hm p (List.mem_cons_of_mem _ hp)
      · simp only [setA_cons, if_neg hk, List.mem_cons] at hp
        rcases hp with hp | hp
        · subst hp
          exact hm _ (List.mem_cons_self _ _)
        · exact ih (fun p2 hp2 => hm p2 (List.mem_cons_of_mem _ hp2)) hp

theorem servicesCoupled_found {m : Services} {sid : String} {r : ServiceRecord}
    (hm : servicesCoupled m = true) (hf : findA m sid = some r) :
    recordCoupled r = true :=
  (servicesCoupled_iff m).mp hm (sid, r) (findA_mem hf)

/-- C8: the coupling invariant — state hot forces readiness ready, and
states cold, starting, stopping force readiness not_ready — is preserved
by every record-mutating operation: the activity stamp _touch, the
promotion to hot performed by the startup driver, the synchronous start
path and the opportunistic status probe, and one sweep of the idle
monitor. -/
theorem coupling_invariant_preserved (m : Services) (sid : String) (now : Int)
    (idleOf : String → Int) (h : servicesCoupled m = true) :
    servicesCoupled (touch m sid now) = true ∧
    servicesCoupled (promoteHot m sid now) = true ∧
    servicesCoupled (idleSweep m now idleOf) = true := by
  refine ⟨?_, ?_, ?_⟩
  · unfold touch
    cases hf : findA m sid with
    | some r =>
        exact servicesCoupled_setA h
          (by rw [recordCoupled_stamp]; exact servicesCoupled_found h hf)
    | none => exact servicesCoupled_setA h (recordCoupled_hot_ready _)
  · unfold promoteHot
    cases hf : findA m sid with
    | some r => exact servicesCoupled_setA h (recordCoupled_hot_ready _)
    | none => exact servicesCoupled_setA h (recordCoupled_hot_ready _)
  · rw [servicesCoupled_iff]
    intro p hp
    unfold idleSweep at hp
    rw [List.mem_map] at hp
    obtain ⟨p0, hp0, hmap⟩ := hp
    have hc0 : recordCoupled p0.2 = true := (servicesCoupled_iff m).mp h p0 hp0
    by_cases h1 : idleOf p0.1 ≤ 0
    · simp only [if_pos h1] at hmap
      rw [← hmap]
      exact hc0
    · simp only [if_neg h1] at hmap
      by_cases h2 : p0.2.state = SState.hot ∧ now - (p0.2.last_used_ms.getD now) ≥ idleOf p0.1
      · simp only [if_pos h2] at hmap
        rw [← hmap]
        exact recordCoupled_cold_not_ready _
      · simp only [if_neg h2] at hmap
        rw [← hmap]
        exact hc0

/-- C8 witness: a coupled two-service store stays coupled under all three
operations. -/
theorem coupling_invariant_preserved_witness :
    servicesCoupled [("a", ⟨SState.hot, Readiness.ready, some 0⟩),
                     ("b", ⟨SState.cold, Readiness.not_ready, none⟩)] = true ∧
    (servicesCoupled (touch [("a", ⟨SState.hot, Readiness.ready, some 0⟩),
                     ("b", ⟨SState.cold, Readiness.not_ready, none⟩)] "a" 7) = true ∧
     servicesCoupled (promoteHot [("a", ⟨SState.hot, Readiness.ready, some 0⟩),
                     ("b", ⟨SState.cold, Readiness.not_ready, none⟩)] "b" 7) = true ∧
     servicesCoupled (idleSweep [("a", ⟨SState.hot, Readiness.ready, some 0⟩),
                     ("b", ⟨SState.cold, Readiness.not_ready, none⟩)] 999 (fun _ => 10)) = true) := by
  refine ⟨by decide, ?_, ?_, ?_⟩
  · exact (coupling_invariant_preserved
      [("a", ⟨SState.hot, Readiness.ready, some 0⟩),
       ("b", ⟨SState.cold, Readiness.not_ready, none⟩)] "a" 7 (fun _ => 10) (by decide)).1
  · exact (coupling_invariant_preserved
      [("a", ⟨SState.hot, Readiness.ready, some 0⟩),
       ("b", ⟨SState.cold, Readiness.not_ready, none⟩)] "b" 7 (fun _ => 10) (by decide)).2.1
  · exact (coupling_invariant_preserved
      [("a", ⟨SState.hot, Readiness.ready, some 0⟩),
       ("b", ⟨SState.cold, Readiness.not_ready, none⟩)] "z" 999 (fun _ => 10) (by decide)).2.2

/-! ## C3 -/

/-- Clearing the flag when set leaves the flag clear either way. -/
theorem isServiceStarting_after_conditional_clear (q : QueueState) (sid : String) :
    isServiceStarting
      (if isServiceStarting q sid then markServiceReady q sid else q) sid = false := by
  unfold isServiceStarting markServiceReady
  by_cases h : (findA q.startup_in_progress sid).getD false = true
  · simp [h, findA_setA_self]
  · simp [h]

theorem conditional_clear_queues (q : QueueState) (sid : String) :
    (if isServiceStarting q sid then markServiceReady q sid else q).service_queues =
      q.service_queues := by
  by_cases h : isServiceStarting q sid = true
  · simp [h, markServiceReady]
  · rw [if_neg (by simp [h])]

/-- C3 counterexample: a cold service with health_url configured, one
pending waiter queued and the startup flag set; the probe returns 200.
get_service_status promotes the record to hot/ready and clears the flag,
but the waiter is still queued and uncompleted afterwards — the status
operation never calls process_all_requests, refuting the claim that the
probe releases (completes) all waiters queued for the service. -/
theorem status_probe_leaves_waiters_queued :
    getServiceStatus [] ⟨[("s", [⟨1, false⟩])], [("s", true)], 100⟩
        { defaultServiceConfig with health_url := some "http://h.local/health" }
        "s" 5 (some 200) =
      ⟨SState.hot, Readiness.ready, 1,
       [("s", ⟨SState.hot, Readiness.ready, some 5⟩)],
       ⟨[("s", [⟨1, false⟩])], [("s", false)], 100⟩, true⟩ := by
  exact rfl

/-- C3 (amended): for a service that is not hot/ready and has a
health_url, the status operation performs one probe with the 2-second
timeout; if the probe returns 200 it promotes the record to hot/ready
(stamping last_used_ms) and clears the startup-in-progress flag, while
the queued waiters stay queued and uncompleted (they are only released
by the startup driver); on any other probe outcome the record and queue
are unchanged. -/
theorem status_probe_promotes_without_release (services : Services) (q : QueueState)
    (cfg : ServiceConfig) (sid : String) (now : Int) (probe : Option Nat)
    (h1 : ¬((getRecord services sid).state = SState.hot ∧
            (getRecord services sid).readiness = Readiness.ready))
    (h2 : cfg.health_url.isSome = true) :
    ((getServiceStatus services q cfg sid now probe).probed = true ∧
     statusProbeTimeoutS ≤ 2) ∧
    (probe = some 200 →
       (getServiceStatus services q cfg sid now probe).services =
         promoteHot services sid now ∧
       isServiceStarting (getServiceStatus services q cfg sid now probe).queue sid
         = false ∧
       (getServiceStatus services q cfg sid now probe).queue.service_queues =
         q.service_queues ∧
       (getServiceStatus services q cfg sid now probe).state = SState.hot ∧
       (getServiceStatus services q cfg sid now probe).readiness = Readiness.ready) ∧
    (probe ≠ some 200 →
       (getServiceStatus services q cfg sid now probe).services = services ∧
       (getServiceStatus services q cfg sid now probe).queue = q) := by
  have hcond : ¬((getRecord services sid).state = SState.hot ∧
      (getRecord services sid).readiness = Readiness.ready) ∧ cfg.health_url.isSome :=
    ⟨h1, by simp [h2]⟩
  cases probe with
  | none =>
      have e : getServiceStatus services q cfg sid now none =
          statusFinish services q sid (getRecord services sid).state
            (getRecord services sid).readiness true := by
        unfold getServiceStatus
        rw [if_pos hcond]
      rw [e]
      refine ⟨⟨rfl, by decide⟩, ?_, ?_⟩
      · intro h
        exact absurd h (by simp)
      · intro _
        exact ⟨rfl, rfl⟩
  | some s =>
      have e : getServiceStatus services q cfg sid now (some s) =
          (if s = 200 then
            statusFinish (promoteHot services sid now)
              (if isServiceStarting q sid then markServiceReady q sid else q)
              sid SState.hot Readiness.ready true
          else
            statusFinish services q sid (getRecord services sid).state
              (getRecord services sid).readiness true) := by
        unfold getServiceStatus
        rw [if_pos hcond]
      rw [e]
      by_cases hs : s = 200
      · subst hs
        rw [if_pos rfl]
        refine ⟨⟨rfl, by decide⟩, ?_, ?_⟩
        · intro _
          refine ⟨rfl, ?_, ?_, ?_, ?_⟩
          · exact isServiceStarting_after_conditional_clear q sid
          · exact conditional_clear_queues q sid
          · simp [statusFinish, isServiceStarting_after_conditional_clear q sid]
          · simp [statusFinish]
        · intro h
          exact absurd rfl h
      · rw [if_neg hs]
        refine ⟨⟨rfl, by decide⟩, ?_, ?_⟩
        · intro h
          exact absurd (Option.some.inj h) hs
        · intro _
          exact ⟨rfl, rfl⟩

/-- C3 amended-claim witness at a concrete input: cold record, set flag,
one queued waiter, probe 200. -/
theorem status_probe_promotes_without_release_witness :
    ((getServiceStatus [] ⟨[("s", [⟨7, false⟩])], [("s", true)], 100⟩
        { defaultServiceConfig with health_url := some "http://h.local/health" }
        "s" 5 (some 200)).probed = true ∧ statusProbeTimeoutS ≤ 2) ∧
    ((getServiceStatus [] ⟨[("s", [⟨7, false⟩])], [("s", true)], 100⟩
        { defaultServiceConfig with health_url := some "http://h.local/health" }
        "s" 5 (some 200)).services = promoteHot [] "s" 5 ∧
     isServiceStarting (getServiceStatus [] ⟨[("s", [⟨7, false⟩])], [("s", true)], 100⟩
        { defaultServiceConfig with health_url := some "http://h.local/health" }
        "s" 5 (some 200)).queue "s" = false ∧
     (getServiceStatus [] ⟨[("s", [⟨7, false⟩])], [("s", true)], 100⟩
        { defaultServiceConfig with health_url := some "http://h.local/health" }
        "s" 5 (some 200)).queue.service_queues = [("s", [⟨7, false⟩])] ∧
     (getServiceStatus [] ⟨[("s", [⟨7, false⟩])], [("s", true)], 100⟩
        { defaultServiceConfig with health_url := some "http://h.local/health" }
        "s" 5 (some 200)).state = SState.hot ∧
     (getServiceStatus [] ⟨[("s", [⟨7, false⟩])], [("s", true)], 100⟩
        { defaultServiceConfig with health_url := some "http://h.local/health" }
        "s" 5 (some 200)).readiness = Readiness.ready) := by
  have h := status_probe_promotes_without_release []
    ⟨[("s", [⟨7, false⟩])], [("s", true)], 100⟩
    { defaultServiceConfig with health_url := some "http://h.local/health" }
    "s" 5 (some 200) (by decide) (by decide)
  exact ⟨h.1, h.2.1 rfl⟩

/-! ## C6 -/

theorem queueRequest_flags {q : QueueState} {sid : String} {w : Waiter}
    {q2 : QueueState} (h : queueRequest q sid w = some q2) :
    q2.startup_in_progress = q.startup_in_progress := by
  unfold queueRequest at h
  cases hf : findA q.service_queues sid with
  | none =>
      rw [hf] at h
      cases h
      rfl
  | some ws =>
      rw [hf] at h
      by_cases hlen : ws.length ≥ q.max_queue_size
      · simp [hlen] at h
      · simp only [if_neg hlen] at h
        cases h
        rfl

theorem processNext_flags (q : QueueState) (sid p : String) :
    ((processNext q sid p).2.1).startup_in_progress = q.startup_in_progress := by
  unfold processNext
  cases hf : findA q.service_queues sid with
  | none => rfl
  | some ws => cases ws <;> rfl

theorem processAll_flags (q : QueueState) (sid p : String) :
    ((processAll q sid p).1).startup_in_progress = q.startup_in_progress := by
  unfold processAll
  cases hf : findA q.service_queues sid <;> rfl

theorem clearQueue_flags (q : QueueState) (sid : String) :
    (clearQueue q sid).startup_in_progress = q.startup_in_progress := by
  unfold clearQueue
  cases hf : findA q.service_queues sid <;> rfl

theorem timeoutRequest_flags (q : QueueState) (sid : String) (wid : Nat) :
    (timeoutRequest q sid wid).startup_in_progress = q.startup_in_progress := by
  unfold timeoutRequest
  cases hf : findA q.service_queues sid <;> rfl

/-- Any queue operation other than mark_service_ready for this service
preserves a claimed startup flag. -/
theorem applyQOp_preserves_flag {q : QueueState} {sid : String} {op : QOp}
    (hop : op ≠ QOp.markReady sid) (h : isServiceStarting q sid = true) :
    isServiceStarting (applyQOp q op) sid = true := by
  unfold isServiceStarting at h ⊢
  cases op with
  | enqueue sid2 w =>
      show (findA ((queueRequest q sid2 w).getD q).startup_in_progress sid).getD false
        = true
      cases he : queueRequest q sid2 w with
      | none => simpa using h
      | some q2 =>
          simp only [Option.getD_some]
          rw [queueRequest_flags he]
          exact h
  | procNext sid2 p =>
      show (findA ((processNext q sid2 p).2.1).startup_in_progress sid).getD false = true
      rw [processNext_flags q sid2 p]
      exact h
  | procAll sid2 p =>
      show (findA ((processAll q sid2 p).1).startup_in_progress sid).getD false = true
      rw [processAll_flags q sid2 p]
      exact h
  | clear sid2 =>
      show (findA (clearQueue q sid2).startup_in_progress sid).getD false = true
      rw [clearQueue_flags q sid2]
      exact h
  | timeoutOp sid2 wid =>
      show (findA (timeoutRequest q sid2 wid).startup_in_progress sid).getD false = true
      rw [timeoutRequest_flags q sid2 wid]
      exact h
  | markStarting sid2 =>
      show (findA ((markServiceStarting q sid2).2).startup_in_progress sid).getD false
        = true
      unfold markServiceStarting
      by_cases h2 : (findA q.startup_in_progress sid2).getD false = true
      · rw [if_pos h2]
        exact h
      · rw [if_neg h2]
        by_cases hsid : sid2 = sid
        · subst hsid
          exact absurd h h2
        · show (findA (setA q.startup_in_progress sid2 true) sid).getD false = true
          rw [findA_setA_other _ _ _ _ hsid]
          exact h
  | markReady sid2 =>
      show (findA (markServiceReady q sid2).startup_in_progress sid).getD false = true
      have hsid : sid2 ≠ sid := by
        intro hc
        exact hop (by rw [hc])
      show (findA (setA q.startup_in_progress sid2 false) sid).getD false = true
      rw [findA_setA_other _ _ _ _ hsid]
      exact h

theorem applyQOps_preserve_flag {sid : String} {ops : List QOp} :
    ∀ {q : QueueState}, isServiceStarting q sid = true →
      (∀ op ∈ ops, op ≠ QOp.markReady sid) →
      isServiceStarting (applyQOps q ops) sid = true := by
  induction ops with
  | nil =>
      intro q h _
      exact h
  | cons op rest ih =>
      intro q h hops
      unfold applyQOps
      exact ih (applyQOp_preserves_flag (hops op (List.mem_cons_self _ _)) h)
        (fun o ho => hops o (List.mem_cons_of_mem _ ho))

theorem getRecord_promoteHot (m : Services) (sid : String) (now : Int) :
    (getRecord (promoteHot m sid now) sid).state = SState.hot ∧
    (getRecord (promoteHot m sid now) sid).readiness = Readiness.ready := by
  unfold promoteHot getRecord
  cases hf : findA m sid <;> simp [findA_setA_self]

/-- The first proactive start on a cold, not-starting service. -/
theorem start_first_call (services : Services) (q : QueueState) (cfg : ServiceConfig)
    (sid : String) (now : Int)
    (hcold : ¬((getRecord services sid).state = SState.hot ∧
               (getRecord services sid).readiness = Readiness.ready))
    (hns : isServiceStarting q sid = false) :
    startServiceProactively services q cfg sid now =
      (if cfg.warmup_ms ≤ 100 ∧ cfg.health_url = none then
        ⟨202, promoteHot services sid now,
         (processAll (markServiceReady
            { q with startup_in_progress := setA q.startup_in_progress sid true } sid)
            sid readyPayload).1, true⟩
      else
        ⟨202, services,
         { q with startup_in_progress := setA q.startup_in_progress sid true }, true⟩) := by
  unfold startServiceProactively
  rw [if_neg hcold, if_neg (by simp [hns])]
  have hm : markServiceStarting q sid =
      (true, { q with startup_in_progress := setA q.startup_in_progress sid true }) := by
    unfold isServiceStarting at hns
    unfold markServiceStarting
    rw [if_neg (by simp [hns])]
  rw [hm]

/-- C6: on a cold service with no startup in progress, the first
proactive-start call returns 202 and launches the startup driver; the
immediately following call returns 409 and launches nothing; and in
general, between a successful claim of the startup flag and the flag
being cleared by mark_service_ready, every further claim attempt for
that service fails (no queue operation other than mark_service_ready
releases the flag). -/
theorem proactive_start_202_then_409 (services : Services) (q : QueueState)
    (cfg : ServiceConfig) (sid : String) (now1 now2 : Int)
    (q2 : QueueState) (ops : List QOp)
    (hcold : ¬((getRecord services sid).state = SState.hot ∧
               (getRecord services sid).readiness = Readiness.ready))
    (hns : isServiceStarting q sid = false)
    (hq2 : isServiceStarting q2 sid = true)
    (hops : ∀ op ∈ ops, op ≠ QOp.markReady sid) :
    (startServiceProactively services q cfg sid now1).code = 202 ∧
    (startServiceProactively services q cfg sid now1).driverLaunched = true ∧
    (startServiceProactively
        (startServiceProactively services q cfg sid now1).services
        (startServiceProactively services q cfg sid now1).queue cfg sid now2).code
      = 409 ∧
    (startServiceProactively
        (startServiceProactively services q cfg sid now1).services
        (startServiceProactively services q cfg sid now1).queue cfg sid now2).driverLaunched
      = false ∧
    (markServiceStarting q2 sid).1 = false ∧
    isServiceStarting (applyQOps q2 ops) sid = true := by
  rw [start_first_call services q cfg sid now1 hcold hns]
  have hflag : isServiceStarting
      { q with startup_in_progress := setA q.startup_in_progress sid true } sid = true := by
    unfold isServiceStarting
    simp [findA_setA_self]
  by_cases hfast : cfg.warmup_ms ≤ 100 ∧ cfg.health_url = none
  · rw [if_pos hfast]
    have h2 := getRecord_promoteHot services sid now1
    refine ⟨rfl, rfl, ?_, ?_, ?_, ?_⟩
    · unfold startServiceProactively
      rw [if_pos ⟨h2.1, h2.2⟩]
    · unfold startServiceProactively
      rw [if_pos ⟨h2.1, h2.2⟩]
    · unfold markServiceStarting
      rw [if_pos (by unfold isServiceStarting at hq2; simpa using hq2)]
    · exact applyQOps_preserve_flag hq2 hops
  · rw [if_neg hfast]
    refine ⟨rfl, rfl, ?_, ?_, ?_, ?_⟩
    · unfold startServiceProactively
      rw [if_neg hcold, if_pos (by simpa using hflag)]
    · unfold startServiceProactively
      rw [if_neg hcold, if_pos (by simpa using hflag)]
    · unfold markServiceStarting
      rw [if_pos (by unfold isServiceStarting at hq2; simpa using hq2)]
    · exact applyQOps_preserve_flag hq2 hops

/-- C6 witness: empty store and queue, the default configuration (which
takes the synchronous fast path), and a claimed flag that survives an
enqueue, a release and a competing claim. -/
theorem proactive_start_202_then_409_witness :
    (startServiceProactively [] ⟨[], [], 100⟩ defaultServiceConfig "s" 5).code = 202 ∧
    (startServiceProactively [] ⟨[], [], 100⟩ defaultServiceConfig "s" 5).driverLaunched
      = true ∧
    (startServiceProactively
        (startServiceProactively [] ⟨[], [], 100⟩ defaultServiceConfig "s" 5).services
        (startServiceProactively [] ⟨[], [], 100⟩ defaultServiceConfig "s" 5).queue
        defaultServiceConfig "s" 6).code = 409 ∧
    (startServiceProactively
        (startServiceProactively [] ⟨[], [], 100⟩ defaultServiceConfig "s" 5).services
        (startServiceProactively [] ⟨[], [], 100⟩ defaultServiceConfig "s" 5).queue
        defaultServiceConfig "s" 6).driverLaunched = false ∧
    (markServiceStarting ⟨[], [("s", true)], 100⟩ "s").1 = false ∧
    isServiceStarting
      (applyQOps ⟨[], [("s", true)], 100⟩
        [QOp.enqueue "s" ⟨1, false⟩, QOp.procAll "s" "ok", QOp.markStarting "s"]) "s"
      = true := by
  exact proactive_start_202_then_409 [] ⟨[], [], 100⟩ defaultServiceConfig "s" 5 6
    ⟨[], [("s", true)], 100⟩
    [QOp.enqueue "s" ⟨1, false⟩, QOp.procAll "s" "ok", QOp.markStarting "s"]
    (by decide) (by decide) (by decide) (by decide)

/-! ## Trace lemmas for the pipeline (C5, C9) -/

theorem isTouch_classify (base : String) (s : Nat) :
    isTouch (classifyAct base s) = false := by
  unfold classifyAct
  split <;> rfl

theorem isRespCall_classify (base : String) (s : Nat) :
    isRespCall (classifyAct base s) = false := by
  unfold classifyAct
  split <;> rfl

theorem isMark_classify (base : String) (s : Nat) :
    isMark (classifyAct base s) = true := by
  unfold classifyAct
  split <;> rfl

theorem isPrimaryCall_classify (base : String) (s : Nat) :
    isPrimaryCall (classifyAct base s) = false := by
  unfold classifyAct
  split <;> rfl

theorem respTouched_nil : respCallsImmediatelyTouched [] = true := rfl

theorem respTouched_cons_primaryResp (s : Nat) (l : List Act) :
    respCallsImmediatelyTouched (Act.primaryCall (Outcome.resp s) :: l) =
      (decide (l.head? = some Act.touchAct) && respCallsImmediatelyTouched l) := rfl

theorem respTouched_cons_fallbackResp (s : Nat) (l : List Act) :
    respCallsImmediatelyTouched (Act.fallbackCall (Outcome.resp s) :: l) =
      (decide (l.head? = some Act.touchAct) && respCallsImmediatelyTouched l) := rfl

theorem respTouched_cons_primaryExc (l : List Act) :
    respCallsImmediatelyTouched (Act.primaryCall Outcome.exc :: l) =
      respCallsImmediatelyTouched l := rfl

theorem respTouched_cons_fallbackExc (l : List Act) :
    respCallsImmediatelyTouched (Act.fallbackCall Outcome.exc :: l) =
      respCallsImmediatelyTouched l := rfl

theorem respTouched_cons_touch (l : List Act) :
    respCallsImmediatelyTouched (Act.touchAct :: l) =
      respCallsImmediatelyTouched l := rfl

theorem respTouched_cons_markH (u : String) (l : List Act) :
    respCallsImmediatelyTouched (Act.markHealthy u :: l) =
      respCallsImmediatelyTouched l := rfl

theorem respTouched_cons_markU (u : String) (l : List Act) :
    respCallsImmediatelyTouched (Act.markUnhealthy u :: l) =
      respCallsImmediatelyTouched l := rfl

theorem respTouched_cons_classify (base : String) (s : Nat) (l : List Act) :
    respCallsImmediatelyTouched (classifyAct base s :: l) =
      respCallsImmediatelyTouched l := by
  unfold classifyAct
  split
  · exact respTouched_cons_markH base l
  · exact respTouched_cons_markU base l

theorem respTouched_attemptLoop (base : String) (outs : List Outcome)
    (tail : List Act) (ht : respCallsImmediatelyTouched tail = true) :
    respCallsImmediatelyTouched ((attemptLoop base outs).1 ++ tail) = true := by
  induction outs with
  | nil => simpa using ht
  | cons o rest ih =>
      cases rest with
      | nil =>
          cases o with
          | resp s =>
              simp only [attemptLoop, List.cons_append, List.nil_append,
                respTouched_cons_primaryResp, respTouched_cons_touch,
                respTouched_cons_classify, ht, List.head?_cons]
              simp
          | exc =>
              simp only [attemptLoop, List.cons_append, List.nil_append,
                respTouched_cons_primaryExc, respTouched_cons_markU]
              exact ht
      | cons o2 rs =>
          cases o with
          | resp s =>
              by_cases h5 : 500 ≤ s
              · cases hA : attemptLoop base (o2 :: rs) with
                | mk tr0 r0 =>
                    have ih2 := ih
                    rw [hA] at ih2
                    simp only [attemptLoop, hA, if_pos h5, List.cons_append,
                      respTouched_cons_primaryResp, respTouched_cons_touch,
                      respTouched_cons_classify, List.head?_cons]
                    simp only [ih2, Bool.and_true]
                    simp
              · simp only [attemptLoop, if_neg h5, List.cons_append, List.nil_append,
                  respTouched_cons_primaryResp, respTouched_cons_touch,
                  respTouched_cons_classify, ht, List.head?_cons]
                simp
          | exc =>
              cases hA : attemptLoop base (o2 :: rs) with
              | mk tr0 r0 =>
                  have ih2 := ih
                  rw [hA] at ih2
                  simp only [attemptLoop, hA, List.cons_append,
                    respTouched_cons_primaryExc, respTouched_cons_markU]
                  exact ih2

theorem countIf_nil (f : Act → Bool) : countIf f [] = 0 := rfl

theorem countIf_cons (f : Act → Bool) (a : Act) (l : List Act) :
    countIf f (a :: l) = (if f a then 1 else 0) + countIf f l := by
  simp only [countIf, List.filter_cons]
  split <;> simp [Nat.add_comm]

theorem touch_eq_resp_attemptLoop (base : String) (outs : List Outcome) :
    countIf isTouch (attemptLoop base outs).1 =
      countIf isRespCall (attemptLoop base outs).1 := by
  induction outs with
  | nil => rfl
  | cons o rest ih =>
      cases rest with
      | nil =>
          cases o with
          | resp s =>
              simp only [attemptLoop, countIf_cons, countIf_nil,
                isTouch_classify, isRespCall_classify]
              simp [isTouch, isRespCall]
          | exc => rfl
      | cons o2 rs =>
          cases o with
          | resp s =>
              by_cases h5 : 500 ≤ s
              · cases hA : attemptLoop base (o2 :: rs) with
                | mk tr0 r0 =>
                    have ih2 := ih
                    rw [hA] at ih2
                    simp only [attemptLoop, hA, if_pos h5, countIf_cons,
                      isTouch_classify, isRespCall_classify]
                    simp only at ih2
                    rw [ih2]
                    simp [isTouch, isRespCall]
              · simp only [attemptLoop, if_neg h5, countIf_cons, countIf_nil,
                  isTouch_classify, isRespCall_classify]
                simp [isTouch, isRespCall]
          | exc =>
              cases hA : attemptLoop base (o2 :: rs) with
              | mk tr0 r0 =>
                  have ih2 := ih
                  rw [hA] at ih2
                  simp only [attemptLoop, hA, countIf_cons]
                  simp only at ih2
                  rw [ih2]
                  simp [isTouch, isRespCall]

theorem marks_eq_primary_attemptLoop (base : String) (outs : List Outcome) :
    countIf isMark (attemptLoop base outs).1 =
      countIf isPrimaryCall (attemptLoop base outs).1 := by
  induction outs with
  | nil => rfl
  | cons o rest ih =>
      cases rest with
      | nil =>
          cases o with
          | resp s =>
              simp only [attemptLoop, countIf_cons, countIf_nil,
                isMark_classify, isPrimaryCall_classify]
              simp [isMark, isPrimaryCall]
          | exc => rfl
      | cons o2 rs =>
          cases o with
          | resp s =>
              by_cases h5 : 500 ≤ s
              · cases hA : attemptLoop base (o2 :: rs) with
                | mk tr0 r0 =>
                    have ih2 := ih
                    rw [hA] at ih2
                    simp only [attemptLoop, hA, if_pos h5, countIf_cons,
                      isMark_classify, isPrimaryCall_classify]
                    simp only at ih2
                    rw [ih2]
                    simp [isMark, isPrimaryCall]
              · simp only [attemptLoop, if_neg h5, countIf_cons, countIf_nil,
                  isMark_classify, isPrimaryCall_classify]
                simp [isMark, isPrimaryCall]
          | exc =>
              cases hA : attemptLoop base (o2 :: rs) with
              | mk tr0 r0 =>
                  have ih2 := ih
                  rw [hA] at ih2
                  simp only [attemptLoop, hA, countIf_cons]
                  simp only at ih2
                  rw [ih2]
                  simp [isMark, isPrimaryCall]

theorem primaryMarks_nil (base : String) : primaryMarksClassified base [] = true := rfl

theorem primaryMarks_cons_resp (base : String) (s : Nat) (m : Act) (l : List Act) :
    primaryMarksClassified base
        (Act.primaryCall (Outcome.resp s) :: Act.touchAct :: m :: l) =
      (decide (m = classifyAct base s) && primaryMarksClassified base l) := rfl

theorem primaryMarks_cons_exc (base : String) (m : Act) (l : List Act) :
    primaryMarksClassified base (Act.primaryCall Outcome.exc :: m :: l) =
      (decide (m = Act.markUnhealthy base) && primaryMarksClassified base l) := rfl

theorem primaryMarks_cons_fallback (base : String) (o : Outcome) (l : List Act) :
    primaryMarksClassified base (Act.fallbackCall o :: l) =
      primaryMarksClassified base l := by
  cases l with
  | nil => rfl
  | cons a l2 => rfl

theorem primaryMarks_cons_touch (base : String) (l : List Act) :
    primaryMarksClassified base (Act.touchAct :: l) =
      primaryMarksClassified base l := by
  cases l with
  | nil => rfl
  | cons a l2 => rfl

theorem primaryMarks_attemptLoop (base : String) (outs : List Outcome)
    (tail : List Act) (ht : primaryMarksClassified base tail = true) :
    primaryMarksClassified base ((attemptLoop base outs).1 ++ tail) = true := by
  induction outs with
  | nil => simpa using ht
  | cons o rest ih =>
      cases rest with
      | nil =>
          cases o with
          | resp s =>
              simp only [attemptLoop, List.cons_append, List.nil_append,
                primaryMarks_cons_resp, ht, Bool.and_true]
              simp
          | exc =>
              simp only [attemptLoop, List.cons_append, List.nil_append,
                primaryMarks_cons_exc, ht, Bool.and_true]
              simp
      | cons o2 rs =>
          cases o with
          | resp s =>
              by_cases h5 : 500 ≤ s
              · cases hA : attemptLoop base (o2 :: rs) with
                | mk tr0 r0 =>
                    have ih2 := ih
                    rw [hA] at ih2
                    simp only [attemptLoop, hA, if_pos h5, List.cons_append,
                      primaryMarks_cons_resp]
                    simp only at ih2
                    simp [ih2]
              · simp only [attemptLoop, if_neg h5, List.cons_append, List.nil_append,
                  primaryMarks_cons_resp, ht, Bool.and_true]
                simp
          | exc =>
              cases hA : attemptLoop base (o2 :: rs) with
              | mk tr0 r0 =>
                  have ih2 := ih
                  rw [hA] at ih2
                  simp only [attemptLoop, hA, List.cons_append, primaryMarks_cons_exc]
                  simp only at ih2
                  simp [ih2]

/-- The fallback section of the trace, by the loop result, the configured
fallback_url and the fallback outcome. -/
def fallbackTail : Option Nat → Option String → Outcome → List Act
  | some _, _, _ => []
  | none, none, _ => []
  | none, some _, Outcome.resp s => [Act.fallbackCall (Outcome.resp s), Act.touchAct]
  | none, some _, Outcome.exc => [Act.fallbackCall Outcome.exc]

theorem runPipeline_trace_eq (base : String) (cfg : ServiceConfig) (plan : Plan) :
    (runPipeline base cfg plan).trace =
      (attemptLoop base ((List.range (max 1 cfg.retry_count)).map plan.primary)).1 ++
        fallbackTail
          (attemptLoop base ((List.range (max 1 cfg.retry_count)).map plan.primary)).2
          cfg.fallback_url plan.fallback := by
  unfold runPipeline
  cases hA : attemptLoop base ((List.range (max 1 cfg.retry_count)).map plan.primary) with
  | mk tr r =>
      cases r with
      | some s => simp [hA, fallbackTail]
      | none =>
          cases hf : cfg.fallback_url with
          | none => simp [hA, hf, fallbackTail]
          | some f =>
              cases hp : plan.fallback with
              | resp s => simp [hA, hf, hp, fallbackTail]
              | exc => simp [hA, hf, hp, fallbackTail]

theorem respTouched_fallbackTail (r : Option Nat) (fb : Option String) (fo : Outcome) :
    respCallsImmediatelyTouched (fallbackTail r fb fo) = true := by
  cases r <;> cases fb <;> cases fo <;> rfl

theorem touch_eq_resp_fallbackTail (r : Option Nat) (fb : Option String) (fo : Outcome) :
    countIf isTouch (fallbackTail r fb fo) =
      countIf isRespCall (fallbackTail r fb fo) := by
  cases r <;> cases fb <;> cases fo <;> rfl

theorem primaryMarks_fallbackTail (base : String) (r : Option Nat) (fb : Option String)
    (fo : Outcome) : primaryMarksClassified base (fallbackTail r fb fo) = true := by
  cases r <;> cases fb <;> cases fo <;> rfl

theorem marks_eq_primary_fallbackTail (r : Option Nat) (fb : Option String)
    (fo : Outcome) :
    countIf isMark (fallbackTail r fb fo) =
      countIf isPrimaryCall (fallbackTail r fb fo) := by
  cases r <;> cases fb <;> cases fo <;> rfl

/-! ## C9 -/

/-- C9: in the attempt loop of both _perform_gateway_request and
_perform_proxy_request, every attempt — primary or fallback — that
yields an HTTP response is immediately followed by the activity stamp
_touch, before its status is classified (so 5xx responses also reset the
idle clock), and the number of stamps equals the number of
response-yielding attempts, so attempts that raise a transport exception
stamp nothing. -/
theorem touch_after_every_response (base : String) (cfg : ServiceConfig) (plan : Plan) :
    respCallsImmediatelyTouched (runPipeline base cfg plan).trace = true ∧
    countIf isTouch (runPipeline base cfg plan).trace =
      countIf isRespCall (runPipeline base cfg plan).trace := by
  rw [runPipeline_trace_eq]
  constructor
  · exact respTouched_attemptLoop base _ _ (respTouched_fallbackTail _ _ _)
  · rw [countIf_append, countIf_append, touch_eq_resp_attemptLoop,
      touch_eq_resp_fallbackTail]

/-! ## C5 (amended) -/

/-- C5 (amended): after every primary attempt the pipeline marks the
instance exactly once — healthy precisely when the response status lies
in [200, 500), unhealthy when the status is outside that range (including
1xx) or the attempt raised a transport exception; the fallback attempt
performs no health marking (mark count equals primary-attempt count). -/
theorem health_marks_follow_classification (base : String) (cfg : ServiceConfig)
    (plan : Plan) :
    primaryMarksClassified base (runPipeline base cfg plan).trace = true ∧
    countIf isMark (runPipeline base cfg plan).trace =
      countIf isPrimaryCall (runPipeline base cfg plan).trace ∧
    ∀ s : Nat, classifyAct base s = Act.markHealthy base ↔ (200 ≤ s ∧ s < 500) := by
  refine ⟨?_, ?_, ?_⟩
  · rw [runPipeline_trace_eq]
    exact primaryMarks_attemptLoop base _ _ (primaryMarks_fallbackTail _ _ _ _)
  · rw [runPipeline_trace_eq, countIf_append, countIf_append,
      marks_eq_primary_attemptLoop, marks_eq_primary_fallbackTail]
  · intro s
    unfold classifyAct
    by_cases h : 200 ≤ s ∧ s < 500
    · simp [h]
    · simp [h]

end Hestia
